import Mathlib

/-!
# LOOT settings store (src/gui/state/loot_settings.h)

A shallow embedding of the `LootSettings` class: its nested records, its default
member initialisers (the game list and the language catalogue are transcribed
literally from the header), and the operations the header declares.

The header is the only source file.  Two kinds of code it relies on are not in it:

* `gui/state/game/game_settings.h` (the `GameSettings` class, its constructor, its
  fluent setters and the `NEHRIM_STEAM_REGISTRY_KEY` constant).  The constructor and
  the constant are taken as parameters (`GameSettingsHeader`); the initialiser list
  itself is kept as syntax (`GameSettingsInit`) so that what the header writes can
  be inspected without knowing any default value.
* the member function bodies (`loot_settings.cpp`).  Each is marked
  "Modelled from the spec" and follows the wording of the specification.
-/

namespace loot

/-! ## Game settings as used by the header -/

/-- The enumerators of `GameType` that the header names, in the order of their first use
(lines 116-124). -/
inductive GameType where
  | tes3
  | tes4
  | tes5
  | tes5se
  | tes5vr
  | fo3
  | fonv
  | fo4
  | fo4vr
  deriving DecidableEq, Repr, Fintype

/-- Modelled from the spec: the `GameSettings` class is declared in
gui/state/game/game_settings.h, which is missing.  The record has the attributes the
spec lists for a game config entry: a stable identifier (`folder`), a base game type,
a display name, a master-file name, registry/detection keys, an optional local-folder
override and a masterlist source. -/
structure GameSettings where
  type : GameType
  folder : String
  name : String
  master : String
  registryKeys : List String
  gameLocalFolder : Option String
  masterlistSource : String
  deriving DecidableEq, Repr

/-- The declarations of game_settings.h that loot_settings.h uses and whose values are
not in the sources: the constructor `GameSettings(type, folder = default)` and the
string constant `NEHRIM_STEAM_REGISTRY_KEY`. -/
structure GameSettingsHeader where
  construct : GameType → Option String → GameSettings
  NEHRIM_STEAM_REGISTRY_KEY : String

/-- A string argument as the header writes it: a literal, or
`std::string(NEHRIM_STEAM_REGISTRY_KEY)` (line 131). -/
inductive StringArg where
  | lit (s : String)
  | nehrimSteamRegistryKey
  deriving DecidableEq, Repr

/-- One call of a fluent setter in an initialiser of `gameSettings_`. -/
inductive SetterCall where
  | SetName (name : String)
  | SetMaster (master : String)
  | SetRegistryKeys (keys : List StringArg)
  | SetGameLocalFolder (folderName : String)
  | SetMasterlistSource (source : String)
  deriving DecidableEq, Repr

/-- The attributes of a game entry that a setter can override. -/
inductive Attribute where
  | name
  | master
  | registryKeys
  | gameLocalFolder
  | masterlistSource
  deriving DecidableEq, Repr, Fintype

/-- The attribute a setter call writes. -/
def SetterCall.attribute : SetterCall → Attribute
  | .SetName _ => .name
  | .SetMaster _ => .master
  | .SetRegistryKeys _ => .registryKeys
  | .SetGameLocalFolder _ => .gameLocalFolder
  | .SetMasterlistSource _ => .masterlistSource

/-- One element of the initialiser list of `gameSettings_`: the constructor call
`GameSettings(type)` or `GameSettings(type, "folder")`, followed by the chained setter
calls. -/
structure GameSettingsInit where
  type : GameType
  folder : Option String
  calls : List SetterCall
  deriving DecidableEq, Repr

/-- An element built from a base type plus an explicit identifier (a total-conversion
variant), as opposed to `GameSettings(type)` alone. -/
def GameSettingsInit.isVariant (i : GameSettingsInit) : Bool :=
  i.folder.isSome

/-- Whether the element's setter chain writes the attribute. -/
def GameSettingsInit.overrides (i : GameSettingsInit) (a : Attribute) : Bool :=
  i.calls.any fun c => decide (c.attribute = a)

/-- The attributes written by the element's setter chain, in call order. -/
def GameSettingsInit.overridden (i : GameSettingsInit) : List Attribute :=
  i.calls.map SetterCall.attribute

/-- The initialiser list of `gameSettings_` (lines 115-153), element by element.
Adjacent C++ string literals are concatenated. -/
def gameSettingsInit : List GameSettingsInit :=
  [ ⟨.tes3, none, []⟩,
    ⟨.tes4, none, []⟩,
    ⟨.tes5, none, []⟩,
    ⟨.tes5se, none, []⟩,
    ⟨.tes5vr, none, []⟩,
    ⟨.fo3, none, []⟩,
    ⟨.fonv, none, []⟩,
    ⟨.fo4, none, []⟩,
    ⟨.fo4vr, none, []⟩,
    ⟨.tes4, some "Nehrim",
      [ .SetName "Nehrim - At Fate's Edge",
        .SetMaster "Nehrim.esm",
        .SetRegistryKeys
          [ .lit "Software\\Microsoft\\Windows\\CurrentVersion\\Uninstall\\Nehrim - At Fate's Edge_is1\\InstallLocation",
            .nehrimSteamRegistryKey ] ]⟩,
    ⟨.tes5, some "Enderal",
      [ .SetName "Enderal: Forgotten Stories",
        .SetRegistryKeys
          [ .lit "HKEY_CURRENT_USER\\SOFTWARE\\SureAI\\Enderal\\Install_Path",
            .lit "Software\\Microsoft\\Windows\\CurrentVersion\\Uninstall\\Steam App 933480\\InstallLocation" ],
        .SetGameLocalFolder "enderal",
        .SetMasterlistSource "https://raw.githubusercontent.com/loot/enderal/v0.17/masterlist.yaml" ]⟩,
    ⟨.tes5se, some "Enderal Special Edition",
      [ .SetName "Enderal: Forgotten Stories (Special Edition)",
        .SetRegistryKeys
          [ .lit "HKEY_CURRENT_USER\\SOFTWARE\\SureAI\\EnderalSE\\Install_Path",
            .lit "Software\\Microsoft\\Windows\\CurrentVersion\\Uninstall\\Steam App 976620\\InstallLocation" ],
        .SetGameLocalFolder "Enderal Special Edition",
        .SetMasterlistSource "https://raw.githubusercontent.com/loot/enderal/v0.17/masterlist.yaml" ]⟩ ]

/-- The value of a string argument. -/
def StringArg.eval (h : GameSettingsHeader) : StringArg → String
  | .lit s => s
  | .nehrimSteamRegistryKey => h.NEHRIM_STEAM_REGISTRY_KEY

/-- Modelled from the spec: the setters of `GameSettings` are declared in the missing
game_settings.h.  The spec gives the attributes as settable; each setter replaces its
attribute and returns the entry (the calls are chained in the header). -/
def SetterCall.apply (h : GameSettingsHeader) (g : GameSettings) : SetterCall → GameSettings
  | .SetName name => { g with name := name }
  | .SetMaster master => { g with master := master }
  | .SetRegistryKeys keys => { g with registryKeys := keys.map (StringArg.eval h) }
  | .SetGameLocalFolder folderName => { g with gameLocalFolder := some folderName }
  | .SetMasterlistSource source => { g with masterlistSource := source }

/-- The entry an initialiser element denotes: the constructor call, then the setters in
order. -/
def GameSettingsInit.eval (h : GameSettingsHeader) (i : GameSettingsInit) : GameSettings :=
  i.calls.foldl (SetterCall.apply h) (h.construct i.type i.folder)

/-! ## The nested records of `LootSettings` -/

/-- The `LootSettings::WindowPosition` record (lines 44-50). -/
structure WindowPosition where
  top : Int := 0
  bottom : Int := 0
  left : Int := 0
  right : Int := 0
  maximised : Bool := false
  deriving DecidableEq, Repr

/-- The `LootSettings::Language` record (lines 52-56). -/
structure Language where
  locale : String
  name : String
  fontFamily : Option String
  deriving DecidableEq, Repr

/-- The `LootSettings::Filters` record with its member initialisers (lines 58-66). -/
structure Filters where
  hideVersionNumbers : Bool := false
  hideCRCs : Bool := false
  hideBashTags : Bool := true
  hideNotes : Bool := false
  hideAllPluginMessages : Bool := false
  hideInactivePlugins : Bool := false
  hideMessagelessPlugins : Bool := false
  deriving DecidableEq, Repr

/-- The initialiser list of `languages_` (lines 155-174). -/
def languagesInit : List Language :=
  [ ⟨"en", "English", none⟩,
    ⟨"bg", "Български", none⟩,
    ⟨"cs", "Čeština", none⟩,
    ⟨"da", "Dansk", none⟩,
    ⟨"de", "Deutsch", none⟩,
    ⟨"es", "Español", none⟩,
    ⟨"fi", "Suomi", none⟩,
    ⟨"fr", "Français", none⟩,
    ⟨"it", "Italiano", none⟩,
    ⟨"ja", "日本語", some "Meiryo"⟩,
    ⟨"ko", "한국어", some "Malgun Gothic"⟩,
    ⟨"pl", "Polski", none⟩,
    ⟨"pt_BR", "Português do Brasil", none⟩,
    ⟨"pt_PT", "Português de Portugal", none⟩,
    ⟨"ru", "Русский", none⟩,
    ⟨"sv", "Svenska", none⟩,
    ⟨"uk_UA", "Українська", none⟩,
    ⟨"zh_CN", "简体中文", some "Microsoft Yahei"⟩ ]

/-! ## The store -/

/-- The data members of `LootSettings` (lines 103-174).  The mutex (line 176) carries no
data and is not part of the state. -/
structure LootSettings where
  autoSort_ : Bool
  enableDebugLogging_ : Bool
  updateMasterlist_ : Bool
  enableLootUpdateCheck_ : Bool
  game_ : String
  lastGame_ : String
  lastVersion_ : String
  language_ : String
  preludeSource_ : String
  theme_ : String
  windowPosition_ : Option WindowPosition
  gameSettings_ : List GameSettings
  filters_ : Filters
  languages_ : List Language

namespace LootSettings

/-- The default-constructed store: every member takes its default member initialiser
(lines 103-174); `lastVersion_` and `windowPosition_` have none and are empty. -/
def defaultConstructed (h : GameSettingsHeader) : LootSettings where
  autoSort_ := false
  enableDebugLogging_ := false
  updateMasterlist_ := true
  enableLootUpdateCheck_ := true
  game_ := "auto"
  lastGame_ := "auto"
  lastVersion_ := ""
  language_ := "en"
  preludeSource_ := "https://raw.githubusercontent.com/loot/prelude/v0.17/prelude.yaml"
  theme_ := "default"
  windowPosition_ := none
  gameSettings_ := gameSettingsInit.map (GameSettingsInit.eval h)
  filters_ := {}
  languages_ := languagesInit

/-! ### Accessors (declared at lines 72-85)

Modelled from the spec (section 4.3): "pure reads of current in-memory state; no side
effects; never fail". -/

/-- Modelled from the spec: the body of `getGame` is missing; a pure read of `game_`. -/
def getGame (s : LootSettings) : String := s.game_

/-- Modelled from the spec: the body of `getLastGame` is missing; a pure read of
`lastGame_`. -/
def getLastGame (s : LootSettings) : String := s.lastGame_

/-- Modelled from the spec: the body of `getLanguage` is missing; a pure read of
`language_`. -/
def getLanguage (s : LootSettings) : String := s.language_

/-- Modelled from the spec: the body of `getTheme` is missing; a pure read of `theme_`. -/
def getTheme (s : LootSettings) : String := s.theme_

/-- Modelled from the spec: the body of `getPreludeSource` is missing; a pure read of
`preludeSource_`. -/
def getPreludeSource (s : LootSettings) : String := s.preludeSource_

/-- Modelled from the spec: the body of `getGameSettings` is missing; a pure read of
`gameSettings_`. -/
def getGameSettings (s : LootSettings) : List GameSettings := s.gameSettings_

/-- Modelled from the spec: the body of `getFilters` is missing; a pure read of
`filters_`. -/
def getFilters (s : LootSettings) : Filters := s.filters_

/-- Modelled from the spec: the body of `getLanguages` is missing; a pure read of
`languages_`. -/
def getLanguages (s : LootSettings) : List Language := s.languages_

/-! ### Mutators (declared at lines 87-100) -/

/-- Modelled from the spec: the body of `setLanguage` is missing.  Section 4.4: each
mutator "atomically replaces the corresponding field(s) in memory" and validates
nothing. -/
def setLanguage (s : LootSettings) (language : String) : LootSettings :=
  { s with language_ := language }

/-- Modelled from the spec: the body of `storeFilters` is missing.  Section 4.4: the
mutator replaces the `filters` field. -/
def storeFilters (s : LootSettings) (filters : Filters) : LootSettings :=
  { s with filters_ := filters }

/-- Modelled from the spec: the body of `storeGameSettings` is missing.  Section 4.4:
it "replaces the entire gameConfigs sequence wholesale" and does not re-merge. -/
def storeGameSettings (s : LootSettings) (gameSettings : List GameSettings) : LootSettings :=
  { s with gameSettings_ := gameSettings }

end LootSettings

/-! ## Loading (declared at lines 68-69, helper at line 178)

The bodies of `load` and `appendBaseGames` are in loot_settings.cpp, which is missing;
the document reader and the validating pass are external collaborators.  What follows
transcribes section 4.1 and section 6 of the specification. -/

/-- Modelled from the spec: one game mapping of the persisted document.  Section 6:
"each mapping: type, optional overrides"; section 4.1: an entry carries "at minimum a
base-type and may override name/master/detection-keys/local-folder/masterlist-source/
identifier". -/
structure GameEntry where
  type : GameType
  folder : Option String
  name : Option String
  master : Option String
  registryKeys : Option (List String)
  gameLocalFolder : Option String
  masterlistSource : Option String
  deriving DecidableEq, Repr

/-- Modelled from the spec: the structured document the reader collaborator returns.
Section 6: "a root mapping with optional keys for each scalar field named above, an
optional list-of-mappings for gameConfigs, an optional mapping for windowPosition, and
an optional mapping for filters.  Keys absent = use default."  The language catalogue is
never part of the document. -/
structure Document where
  autoSort : Option Bool
  enableDebugLogging : Option Bool
  updateMasterlist : Option Bool
  enableLootUpdateCheck : Option Bool
  game : Option String
  lastGame : Option String
  lastVersion : Option String
  language : Option String
  preludeSource : Option String
  theme : Option String
  windowPosition : Option WindowPosition
  games : Option (List GameEntry)
  filters : Option Filters
  deriving DecidableEq, Repr

/-- The game entries a document lists: none when the key is absent. -/
def Document.gameEntries (d : Document) : List GameEntry :=
  d.games.getD []

/-- Modelled from the spec: the external collaborators of `load` (section 6).  The
document reader "consumes a file path, returns a structured tree or fails with a parse
error"; it is applied to the text found at the path.  The validation collaborator,
"given a data-directory path, returns an ordered sequence of advisory warning strings
(possibly empty); never fails hard" (declared at lines 39-40). -/
structure Collaborators where
  parse : String → Except String Document
  checkSettingsFile : String → List String

/-- Modelled from the spec: the error taxonomy of section 7 as far as `load` raises it:
"DocumentParseError: document exists but is malformed". -/
inductive LoadError where
  | documentParseError (message : String)
  deriving DecidableEq, Repr

/-- What a call of `load` leaves behind: the error surfaced to the caller (none when the
call succeeds), the advisory warnings of the validating pass, and the store's state
after the call. -/
structure LoadResult where
  error : Option LoadError
  warnings : List String
  state : LootSettings

/-- Modelled from the spec: the fields of an existing entry that a document entry
overrides (section 4.1: name, master, detection keys, local folder, masterlist source).
A key the entry does not carry leaves the attribute as it is; identifier and base type
are not touched. -/
def GameEntry.overrideOnto (e : GameEntry) (g : GameSettings) : GameSettings :=
  { g with
    name := e.name.getD g.name
    master := e.master.getD g.master
    registryKeys := e.registryKeys.getD g.registryKeys
    gameLocalFolder := match e.gameLocalFolder with
      | some f => some f
      | none => g.gameLocalFolder
    masterlistSource := e.masterlistSource.getD g.masterlistSource }

/-- Modelled from the spec: the entry a document entry denotes on its own.  Section 6:
"given a base type (and optional identifier), produce a fully defaulted entry", then the
entry's overrides. -/
def GameEntry.toGameSettings (h : GameSettingsHeader) (e : GameEntry) : GameSettings :=
  e.overrideOnto (h.construct e.type e.folder)

/-- The identifier of the entry a document entry denotes. -/
def GameEntry.identifier (h : GameSettingsHeader) (e : GameEntry) : String :=
  (e.toGameSettings h).folder

/-- Modelled from the spec: the merge rule of section 4.1 for one document entry, on the
list `l` the store holds.  "Any document entry whose identifier matches an existing
default entry overrides that entry's overridable fields in place, preserving its
position; any document entry with a new identifier is appended."  Section 8 has the same
rule for "existing entries" in general. -/
def mergeGame (h : GameSettingsHeader) (l : List GameSettings) (e : GameEntry) :
    List GameSettings :=
  if l.any (fun g => decide (g.folder = e.identifier h)) then
    l.map fun g => if g.folder = e.identifier h then e.overrideOnto g else g
  else
    l ++ [e.toGameSettings h]

/-- The base game types of the default set: the types of the initialiser elements that
are built from a type alone, in list order. -/
def baseGameTypes : List GameType :=
  (gameSettingsInit.filter fun i => !i.isVariant).map fun i => i.type

/-- Modelled from the spec: the body of `appendBaseGames` (declared at line 178, private,
no arguments, no result) is missing.  Section 3: the game list "must always contain one
entry per supported base game"; section 4.1: "the fixed base-game defaults are always
present" and "a base game can never be silently removed by an incomplete document".  The
helper goes through the base game types in list order and appends the default entry
`GameSettings(type)` of each one whose identifier no entry of the list has; it changes
and removes nothing. -/
def LootSettings.appendBaseGames (h : GameSettingsHeader) (l : List GameSettings) :
    List GameSettings :=
  baseGameTypes.foldl
    (fun acc t =>
      if acc.any (fun g => decide (g.folder = (h.construct t none).folder)) then acc
      else acc ++ [h.construct t none])
    l

/-- Modelled from the spec: what a successful `load` does with a parsed document
(section 4.1).  "This is a field-by-field merge, not a wholesale replace": a value
present in the document overrides the field, a value absent from it leaves the field as
the store holds it (section 8: a document that sets only the theme "leaves every other
field at its prior value").  The game list is merged the same way: each document entry
is merged by `mergeGame` onto the list the store holds, so that entries the document
does not list, user-added ones included (section 3), stay as they are and keep their
position; `appendBaseGames` then supplies the default entry of any base game the list
lacks.  "languages is never loaded from the document". -/
def LootSettings.mergeDocument (h : GameSettingsHeader) (s : LootSettings) (d : Document) :
    LootSettings where
  autoSort_ := d.autoSort.getD s.autoSort_
  enableDebugLogging_ := d.enableDebugLogging.getD s.enableDebugLogging_
  updateMasterlist_ := d.updateMasterlist.getD s.updateMasterlist_
  enableLootUpdateCheck_ := d.enableLootUpdateCheck.getD s.enableLootUpdateCheck_
  game_ := d.game.getD s.game_
  lastGame_ := d.lastGame.getD s.lastGame_
  lastVersion_ := d.lastVersion.getD s.lastVersion_
  language_ := d.language.getD s.language_
  preludeSource_ := d.preludeSource.getD s.preludeSource_
  theme_ := d.theme.getD s.theme_
  windowPosition_ := match d.windowPosition with
    | some w => some w
    | none => s.windowPosition_
  gameSettings_ :=
    LootSettings.appendBaseGames h (d.gameEntries.foldl (mergeGame h) s.gameSettings_)
  filters_ := d.filters.getD s.filters_
  languages_ := s.languages_

/-- Modelled from the spec: the body of `load` is missing.  Section 4.1, with `content`
the text at the path `file` (none when the path does not exist): a missing document
"leaves all in-memory state at its current values" and is not an error; a parsing
failure "is surfaced to the caller as a distinct error condition" and "the prior
in-memory state is retained unchanged"; otherwise the document is merged and the
validating pass over `lootDataPath` delivers its advisory warnings. -/
def LootSettings.load (h : GameSettingsHeader) (c : Collaborators) (s : LootSettings)
    (content : Option String) (lootDataPath : String) : LoadResult :=
  match content with
  | none => ⟨none, [], s⟩
  | some text =>
    match c.parse text with
    | .error message => ⟨some (.documentParseError message), [], s⟩
    | .ok d => ⟨none, c.checkSettingsFile lootDataPath, LootSettings.mergeDocument h s d⟩

/-! ## Concrete inputs

The values of game_settings.h are not in the sources.  The instance below stands in for
them where a statement is evaluated at a concrete input: a base type's identifier is its
enumerator name and every other attribute is empty. -/

/-- A stand-in for the declarations of game_settings.h. -/
def exampleHeader : GameSettingsHeader where
  construct t folder :=
    { type := t
      folder := folder.getD
        (match t with
          | .tes3 => "tes3"
          | .tes4 => "tes4"
          | .tes5 => "tes5"
          | .tes5se => "tes5se"
          | .tes5vr => "tes5vr"
          | .fo3 => "fo3"
          | .fonv => "fonv"
          | .fo4 => "fo4"
          | .fo4vr => "fo4vr")
      name := ""
      master := ""
      registryKeys := []
      gameLocalFolder := none
      masterlistSource := "" }
  NEHRIM_STEAM_REGISTRY_KEY := ""

/-- Collaborators whose reader rejects every text. -/
def rejectingCollaborators : Collaborators where
  parse _ := .error "syntax error"
  checkSettingsFile _ := []

/-- A store that is not in its default state: the language was changed and the game
list was replaced by the empty list. -/
def examplePriorState : LootSettings :=
  LootSettings.storeGameSettings
    (LootSettings.setLanguage (LootSettings.defaultConstructed exampleHeader) "fr") []

/-- C1, as stated, fails: whatever the missing GameSettings declarations are, the game
list of a freshly constructed store does not have ten entries, and the initialiser list
has neither eight base-game elements nor two variant elements. -/
theorem default_game_list_not_eight_plus_two :
    (¬ ∃ h : GameSettingsHeader,
        (LootSettings.getGameSettings (LootSettings.defaultConstructed h)).length = 10)
      ∧ (gameSettingsInit.filter fun i => !i.isVariant).length ≠ 8
      ∧ (gameSettingsInit.filter fun i => i.isVariant).length ≠ 2 := by
  refine ⟨?_, by decide, by decide⟩
  rintro ⟨h, hlen⟩
  simp [LootSettings.getGameSettings, LootSettings.defaultConstructed, gameSettingsInit] at hlen

/-- C1, amended: a freshly constructed store lists twelve games, the entries denoted by
the initialiser list in order.  There are nine base game types; the first nine elements
are the base games, exactly one for each type and built from the type alone; the last
three are the variants with the explicit identifiers Nehrim, Enderal and Enderal
Special Edition; every base-game element precedes every variant element. -/
theorem default_game_list_nine_plus_three :
    (∀ h : GameSettingsHeader,
        LootSettings.getGameSettings (LootSettings.defaultConstructed h)
            = gameSettingsInit.map (GameSettingsInit.eval h)
          ∧ (LootSettings.getGameSettings (LootSettings.defaultConstructed h)).length = 12)
      ∧ Fintype.card GameType = 9
      ∧ (∀ t : GameType,
          (gameSettingsInit.filter fun i => !i.isVariant && decide (i.type = t)).length = 1)
      ∧ gameSettingsInit.take 9
          = [GameType.tes3, .tes4, .tes5, .tes5se, .tes5vr, .fo3, .fonv, .fo4, .fo4vr].map
              (fun t => ⟨t, none, []⟩)
      ∧ (gameSettingsInit.drop 9).map (fun i => (i.type, i.folder))
          = [(.tes4, some "Nehrim"), (.tes5, some "Enderal"),
             (.tes5se, some "Enderal Special Edition")]
      ∧ (∀ i j : Fin gameSettingsInit.length,
          (gameSettingsInit.get i).isVariant = false →
            (gameSettingsInit.get j).isVariant = true → i < j) := by
  refine ⟨fun h => ⟨rfl, ?_⟩, by decide, by decide, by decide, by decide, by decide⟩
  simp [LootSettings.getGameSettings, LootSettings.defaultConstructed, gameSettingsInit]

/-- C4, as stated, fails: not every variant element of the initialiser list calls all
five setters. -/
theorem variant_not_all_five_overridden :
    ¬ ∀ i ∈ gameSettingsInit, i.isVariant = true → ∀ a : Attribute, i.overrides a = true := by
  decide

/-- C4, amended: the variant elements of the initialiser list are exactly Nehrim (from
tes4), Enderal (from tes5) and Enderal Special Edition (from tes5se).  Each is built
from a base type plus an explicit identifier and sets name and registry keys.  Nehrim
also sets the master file and sets neither game local folder nor masterlist source; the
two Enderal elements also set game local folder and masterlist source and do not set
the master file. -/
theorem variant_overrides :
    (gameSettingsInit.filter fun i => i.isVariant).map
        (fun i => (i.type, i.folder, i.overridden))
      = [ (.tes4, some "Nehrim", [.name, .master, .registryKeys]),
          (.tes5, some "Enderal",
            [.name, .registryKeys, .gameLocalFolder, .masterlistSource]),
          (.tes5se, some "Enderal Special Edition",
            [.name, .registryKeys, .gameLocalFolder, .masterlistSource]) ]
      ∧ (∀ i ∈ gameSettingsInit, i.isVariant = true →
          i.overrides .name = true ∧ i.overrides .registryKeys = true
            ∧ (i.overrides .master = true ↔ i.folder = some "Nehrim")
            ∧ (i.overrides .gameLocalFolder = true ↔ i.folder ≠ some "Nehrim")
            ∧ (i.overrides .masterlistSource = true ↔ i.folder ≠ some "Nehrim")) := by
  constructor
  · decide
  · decide

/-- C5: in a freshly constructed store every field with a default member initialiser is
non-empty, and its accessor returns that non-empty value: getGame, getLastGame,
getLanguage, getTheme and getPreludeSource return non-empty strings, getGameSettings
and getLanguages return non-empty lists. -/
theorem fresh_store_accessors_nonempty (h : GameSettingsHeader) :
    (LootSettings.getGame (LootSettings.defaultConstructed h) = "auto"
        ∧ LootSettings.getGame (LootSettings.defaultConstructed h) ≠ "")
      ∧ (LootSettings.getLastGame (LootSettings.defaultConstructed h) = "auto"
        ∧ LootSettings.getLastGame (LootSettings.defaultConstructed h) ≠ "")
      ∧ (LootSettings.getLanguage (LootSettings.defaultConstructed h) = "en"
        ∧ LootSettings.getLanguage (LootSettings.defaultConstructed h) ≠ "")
      ∧ (LootSettings.getTheme (LootSettings.defaultConstructed h) = "default"
        ∧ LootSettings.getTheme (LootSettings.defaultConstructed h) ≠ "")
      ∧ (LootSettings.getPreludeSource (LootSettings.defaultConstructed h)
          = "https://raw.githubusercontent.com/loot/prelude/v0.17/prelude.yaml"
        ∧ LootSettings.getPreludeSource (LootSettings.defaultConstructed h) ≠ "")
      ∧ ((LootSettings.getGameSettings (LootSettings.defaultConstructed h)).length = 12
        ∧ LootSettings.getGameSettings (LootSettings.defaultConstructed h) ≠ [])
      ∧ ((LootSettings.getLanguages (LootSettings.defaultConstructed h)).length = 18
        ∧ LootSettings.getLanguages (LootSettings.defaultConstructed h) ≠ []) := by
  refine ⟨⟨rfl, ?_⟩, ⟨rfl, ?_⟩, ⟨rfl, ?_⟩, ⟨rfl, ?_⟩, ⟨rfl, ?_⟩, ⟨?_, ?_⟩, ⟨?_, ?_⟩⟩
  · show "auto" ≠ ""
    decide
  · show "auto" ≠ ""
    decide
  · show "en" ≠ ""
    decide
  · show "default" ≠ ""
    decide
  · show "https://raw.githubusercontent.com/loot/prelude/v0.17/prelude.yaml" ≠ ""
    decide
  · simp [LootSettings.getGameSettings, LootSettings.defaultConstructed, gameSettingsInit]
  · simp [LootSettings.getGameSettings, LootSettings.defaultConstructed, gameSettingsInit]
  · simp [LootSettings.getLanguages, LootSettings.defaultConstructed, languagesInit]
  · simp [LootSettings.getLanguages, LootSettings.defaultConstructed, languagesInit]

/-- C6: in a freshly constructed store the value of language_ , which getLanguage
returns, is the locale of exactly one entry of the languages_ catalogue. -/
theorem default_language_in_catalogue (h : GameSettingsHeader) :
    ((LootSettings.defaultConstructed h).languages_.filter fun l =>
        decide (l.locale = (LootSettings.defaultConstructed h).language_)).length = 1
      ∧ LootSettings.getLanguage (LootSettings.defaultConstructed h)
          = (LootSettings.defaultConstructed h).language_ := by
  constructor
  · show (languagesInit.filter fun l => decide (l.locale = "en")).length = 1
    decide
  · rfl

/-- The locales of the compiled-in catalogue, without repetition. -/
theorem languagesInit_locales_nodup : (languagesInit.map fun l => l.locale).Nodup := by
  decide

/-- C7: the locales of the languages_ catalogue, the list getLanguages returns, are
pairwise distinct: at two different positions the locales differ. -/
theorem catalogue_locales_distinct (h : GameSettingsHeader) (i j : Nat)
    (hi : i < (LootSettings.defaultConstructed h).languages_.length)
    (hj : j < (LootSettings.defaultConstructed h).languages_.length)
    (hij : i ≠ j) :
    LootSettings.getLanguages (LootSettings.defaultConstructed h)
        = (LootSettings.defaultConstructed h).languages_
      ∧ ((LootSettings.defaultConstructed h).languages_.get ⟨i, hi⟩).locale
        ≠ ((LootSettings.defaultConstructed h).languages_.get ⟨j, hj⟩).locale := by
  refine ⟨rfl, ?_⟩
  change i < languagesInit.length at hi
  change j < languagesInit.length at hj
  show (languagesInit.get ⟨i, hi⟩).locale ≠ (languagesInit.get ⟨j, hj⟩).locale
  intro heq
  have hnd := languagesInit_locales_nodup
  have hi2 : i < (languagesInit.map fun l => l.locale).length := by simpa using hi
  have hj2 : j < (languagesInit.map fun l => l.locale).length := by simpa using hj
  have key : (languagesInit.map fun l => l.locale).get ⟨i, hi2⟩
      = (languagesInit.map fun l => l.locale).get ⟨j, hj2⟩ := by
    simpa using heq
  have hfin := (List.Nodup.get_inj_iff hnd).1 key
  exact hij (by simpa using hfin)

/-- C7 at a concrete input: positions 0 and 17, the first and the last of the
catalogue. -/
theorem catalogue_locales_distinct_witness :
    LootSettings.getLanguages (LootSettings.defaultConstructed exampleHeader)
        = (LootSettings.defaultConstructed exampleHeader).languages_
      ∧ ((LootSettings.defaultConstructed exampleHeader).languages_.get
          ⟨0, by decide⟩).locale
        ≠ ((LootSettings.defaultConstructed exampleHeader).languages_.get
          ⟨17, by decide⟩).locale :=
  catalogue_locales_distinct exampleHeader 0 17 (by decide) (by decide) (by decide)

/-! ## Mutators -/

/-- C8: after storeFilters, getFilters returns the stored value, for every store and
every Filters value.  From a freshly constructed store, storing the default Filters with
only hideCRCs set gives hideCRCs true and leaves the six other filters at their
construction-time values. -/
theorem storeFilters_then_getFilters :
    (∀ (s : LootSettings) (f : Filters),
        LootSettings.getFilters (LootSettings.storeFilters s f) = f)
      ∧ ∀ h : GameSettingsHeader,
          (LootSettings.getFilters
              (LootSettings.storeFilters (LootSettings.defaultConstructed h)
                { hideCRCs := true })).hideCRCs = true
            ∧ (LootSettings.getFilters
                (LootSettings.storeFilters (LootSettings.defaultConstructed h)
                  { hideCRCs := true })).hideVersionNumbers
              = (LootSettings.getFilters (LootSettings.defaultConstructed h)).hideVersionNumbers
            ∧ (LootSettings.getFilters
                (LootSettings.storeFilters (LootSettings.defaultConstructed h)
                  { hideCRCs := true })).hideBashTags
              = (LootSettings.getFilters (LootSettings.defaultConstructed h)).hideBashTags
            ∧ (LootSettings.getFilters
                (LootSettings.storeFilters (LootSettings.defaultConstructed h)
                  { hideCRCs := true })).hideNotes
              = (LootSettings.getFilters (LootSettings.defaultConstructed h)).hideNotes
            ∧ (LootSettings.getFilters
                (LootSettings.storeFilters (LootSettings.defaultConstructed h)
                  { hideCRCs := true })).hideAllPluginMessages
              = (LootSettings.getFilters
                  (LootSettings.defaultConstructed h)).hideAllPluginMessages
            ∧ (LootSettings.getFilters
                (LootSettings.storeFilters (LootSettings.defaultConstructed h)
                  { hideCRCs := true })).hideInactivePlugins
              = (LootSettings.getFilters (LootSettings.defaultConstructed h)).hideInactivePlugins
            ∧ (LootSettings.getFilters
                (LootSettings.storeFilters (LootSettings.defaultConstructed h)
                  { hideCRCs := true })).hideMessagelessPlugins
              = (LootSettings.getFilters
                  (LootSettings.defaultConstructed h)).hideMessagelessPlugins := by
  refine ⟨fun _ _ => rfl, fun _ => ⟨rfl, rfl, rfl, rfl, rfl, rfl, rfl⟩⟩

/-- C9: setLanguage accepts every string: afterwards getLanguage returns it and every
other field of the store is as before.  From defaults, "fr" reads back as "fr", and so
does "tlh", which is the locale of no catalogue entry. -/
theorem setLanguage_frame :
    (∀ (s : LootSettings) (language : String),
        LootSettings.getLanguage (LootSettings.setLanguage s language) = language
          ∧ (LootSettings.setLanguage s language).autoSort_ = s.autoSort_
          ∧ (LootSettings.setLanguage s language).enableDebugLogging_ = s.enableDebugLogging_
          ∧ (LootSettings.setLanguage s language).updateMasterlist_ = s.updateMasterlist_
          ∧ (LootSettings.setLanguage s language).enableLootUpdateCheck_
              = s.enableLootUpdateCheck_
          ∧ (LootSettings.setLanguage s language).game_ = s.game_
          ∧ (LootSettings.setLanguage s language).lastGame_ = s.lastGame_
          ∧ (LootSettings.setLanguage s language).lastVersion_ = s.lastVersion_
          ∧ (LootSettings.setLanguage s language).preludeSource_ = s.preludeSource_
          ∧ (LootSettings.setLanguage s language).theme_ = s.theme_
          ∧ (LootSettings.setLanguage s language).windowPosition_ = s.windowPosition_
          ∧ (LootSettings.setLanguage s language).gameSettings_ = s.gameSettings_
          ∧ (LootSettings.setLanguage s language).filters_ = s.filters_
          ∧ (LootSettings.setLanguage s language).languages_ = s.languages_)
      ∧ (∀ h : GameSettingsHeader,
          LootSettings.getLanguage
              (LootSettings.setLanguage (LootSettings.defaultConstructed h) "fr") = "fr")
      ∧ "tlh" ∉ languagesInit.map (fun l => l.locale)
      ∧ ∀ h : GameSettingsHeader,
          LootSettings.getLanguage
              (LootSettings.setLanguage (LootSettings.defaultConstructed h) "tlh") = "tlh" := by
  refine ⟨fun _ _ => ⟨rfl, rfl, rfl, rfl, rfl, rfl, rfl, rfl, rfl, rfl, rfl, rfl, rfl, rfl⟩,
    fun _ => rfl, by decide, fun _ => rfl⟩

/-! ## Loading -/

/-- C3: when the reader rejects the document's text, load surfaces the parse error,
delivers no warnings, and the store's state after the call is the state before it. -/
theorem load_parse_error_keeps_state (h : GameSettingsHeader) (c : Collaborators)
    (s : LootSettings) (text lootDataPath message : String)
    (hparse : c.parse text = .error message) :
    (LootSettings.load h c s (some text) lootDataPath).error
        = some (.documentParseError message)
      ∧ (LootSettings.load h c s (some text) lootDataPath).warnings = []
      ∧ (LootSettings.load h c s (some text) lootDataPath).state = s := by
  simp [LootSettings.load, hparse]

/-- C3 at a concrete input: a store whose language was changed, a rejecting reader. -/
theorem load_parse_error_keeps_state_witness :
    (LootSettings.load exampleHeader rejectingCollaborators examplePriorState
        (some "theme = [") "data").error = some (.documentParseError "syntax error")
      ∧ (LootSettings.load exampleHeader rejectingCollaborators examplePriorState
          (some "theme = [") "data").warnings = []
      ∧ (LootSettings.load exampleHeader rejectingCollaborators examplePriorState
          (some "theme = [") "data").state = examplePriorState :=
  load_parse_error_keeps_state exampleHeader rejectingCollaborators examplePriorState
    "theme = [" "data" "syntax error" rfl

end loot
